import Mathlib

/-!
# Verification of the Validiant field-task dispatch core

A shallow embedding of the core logic of `src/index.js`: the coordinate
extractor, the assignment engine (assign / unassign / reassign / status
update endpoints), single task creation, and the bulk-import pipeline,
together with theorems settling the specification claims about them.

Conventions of the embedding:
* JavaScript strings are Lean `String`s; JS `null`/`undefined` are both
  `Option.none` (the code never distinguishes them on these paths).
* JS numbers obtained from `parseFloat` of a `-?\d+\.\d+` match are kept
  in exact unreduced decimal form (`JsNum`), so that every embedded
  computation is kernel-decidable; `JsNum.toRat` gives the denoted
  rational value.  The code performs no arithmetic on these numbers,
  only zero tests (truthiness), so the representation is faithful.
* Dates/timestamps are opaque: calendar-date strings stay `String`,
  instants are `Nat` ticks supplied by the caller as "now".
* JS truthiness is modelled explicitly (`""` and `0` are falsy).
-/

namespace Validiant

/-- JS truthiness of a possibly-absent string: `null`/`undefined` and `""`
are falsy, every other string is truthy. -/
def jsTruthyS : Option String → Bool
  | none => false
  | some s => !(s == "")

/-- JS truthiness of a possibly-absent integer id: `null`/`undefined` and
`0` are falsy. -/
def jsTruthyNat : Option Nat → Bool
  | none => false
  | some n => !(n == 0)

/-- JS `a || b` on possibly-absent strings: returns `b` when `a` is falsy.
(We collapse the falsy values `null`/`undefined`/`""` to `none`; every
consumer in the embedded code immediately tests truthiness, so the
collapse is observationally inert.) -/
def jsOrS (a b : Option String) : Option String :=
  if jsTruthyS a then a else b

/-- The exact decimal number `(-1)^neg * (ip + fp/10^fl)`: the result of
JS `parseFloat` on a matched `-?\d+\.\d+` group, kept unreduced.  The
embedded code never compares two of these for equality (only against
zero), so representation equality is used in theorems solely for
deterministic concrete outputs. -/
structure JsNum where
  neg : Bool
  ip : Nat
  fp : Nat
  fl : Nat
deriving DecidableEq

/-- The rational value denoted by a `JsNum`. -/
def JsNum.toRat (n : JsNum) : ℚ :=
  let v : ℚ := (n.ip : ℚ) + (n.fp : ℚ) / (10 : ℚ) ^ n.fl
  if n.neg then -v else v

/-- Zero test on the denoted value (`ip + fp/10^fl = 0` iff both parts
vanish). -/
def JsNum.isZero (n : JsNum) : Bool := n.ip == 0 && n.fp == 0

/-- Decides `|value| ≤ b` on the decimal representation:
`ip + fp/10^fl ≤ b` iff `ip * 10^fl + fp ≤ b * 10^fl`. -/
def JsNum.absLe (n : JsNum) (b : Nat) : Bool :=
  decide (n.ip * 10 ^ n.fl + n.fp ≤ b * 10 ^ n.fl)

/-- JS truthiness of a possibly-absent number: `null`/`undefined` and `0`
are falsy. -/
def jsTruthyN : Option JsNum → Bool
  | none => false
  | some n => !n.isZero

/-- JS `a || b` on possibly-absent numbers. -/
def jsOrN (a b : Option JsNum) : Option JsNum :=
  if jsTruthyN a then a else b

/-- JS `String.prototype.trim`: strip leading and trailing whitespace
(structural implementation over the character list). -/
def trimChars (l : List Char) : List Char :=
  ((l.dropWhile Char.isWhitespace).reverse.dropWhile Char.isWhitespace).reverse

/-- Trim a string, JS style. -/
def jsTrim (s : String) : String := ⟨trimChars s.toList⟩

/-! ## Coordinate Extractor (`extractCoordinates`, src/index.js lines 542-566)

The two regular expressions `@(-?\d+\.\d+),(-?\d+\.\d+)` and
`\?q=(-?\d+\.\d+),(-?\d+\.\d+)` are embedded as deterministic scanners.
Because the character classes involved (`\d`, `.`, `,`, `@`, `-`) are
pairwise disjoint, greedy maximal-munch matching with no backtracking
computes exactly the leftmost match the JS regex engine finds. -/

/-- Greedily take the maximal run of ASCII digits (`\d+` fragment),
returning the digits and the rest of the input. -/
def takeDigits : List Char → List Char × List Char
  | [] => ([], [])
  | c :: cs =>
    if c.isDigit then
      let (ds, r) := takeDigits cs
      (c :: ds, r)
    else ([], c :: cs)

/-- Match the fragment `\d+\.\d+` at the head of the input.
On success returns `(integer digits, fraction digits, rest)`. -/
def matchUnsigned (l : List Char) : Option (List Char × List Char × List Char) :=
  let (ds, r1) := takeDigits l
  if ds.isEmpty then none
  else
    match r1 with
    | '.' :: r2 =>
      let (fs, r3) := takeDigits r2
      if fs.isEmpty then none else some (ds, fs, r3)
    | _ => none

/-- Match the fragment `-?\d+\.\d+` at the head of the input.
On success returns `(negative?, integer digits, fraction digits, rest)`. -/
def matchNum (l : List Char) : Option (Bool × List Char × List Char × List Char) :=
  match l with
  | '-' :: rest => (matchUnsigned rest).map (fun (ds, fs, r) => (true, ds, fs, r))
  | _ => (matchUnsigned l).map (fun (ds, fs, r) => (false, ds, fs, r))

/-- Numeric value of a run of decimal digits. -/
def digitsToNat (ds : List Char) : Nat :=
  ds.foldl (fun n c => 10 * n + (c.toNat - '0'.toNat)) 0

/-- JS `parseFloat` of a matched `-?\d+\.\d+` group. -/
def parseFloatNum (neg : Bool) (ds fs : List Char) : JsNum :=
  ⟨neg, digitsToNat ds, digitsToNat fs, fs.length⟩

/-- Match `(-?\d+\.\d+),(-?\d+\.\d+)` at the head of the input, returning
both parsed numbers. -/
def matchPair (l : List Char) : Option (JsNum × JsNum) :=
  match matchNum l with
  | none => none
  | some (n1, d1, f1, r1) =>
    match r1 with
    | ',' :: r2 =>
      match matchNum r2 with
      | none => none
      | some (n2, d2, f2, _) => some (parseFloatNum n1 d1 f1, parseFloatNum n2 d2 f2)
    | _ => none

/-- Match pattern 1, `@(-?\d+\.\d+),(-?\d+\.\d+)`, at the head. -/
def matchPat1At : List Char → Option (JsNum × JsNum)
  | '@' :: rest => matchPair rest
  | _ => none

/-- Match pattern 2, `\?q=(-?\d+\.\d+),(-?\d+\.\d+)`, at the head. -/
def matchPat2At : List Char → Option (JsNum × JsNum)
  | '?' :: 'q' :: '=' :: rest => matchPair rest
  | _ => none

/-- Leftmost-match search: try the pattern at every start position, in
order, as the JS `String.prototype.match` does. -/
def findFirst (p : List Char → Option (JsNum × JsNum)) :
    List Char → Option (JsNum × JsNum)
  | [] => none
  | c :: cs =>
    match p (c :: cs) with
    | some r => some r
    | none => findFirst p cs

/-- The function `extractCoordinates(url)` (src/index.js lines 542-566): `null` for a
falsy url; otherwise pattern 1 (`@lat,lng`) is tried over the whole
string first, then pattern 2 (`?q=lat,lng`); `null` when neither
matches.  Results are `(latitude, longitude)`. -/
def extractCoordinates (url : String) : Option (JsNum × JsNum) :=
  if url == "" then none
  else
    match findFirst matchPat1At url.toList with
    | some r => some r
    | none => findFirst matchPat2At url.toList

/-! ## Data model (Sequelize `Task` and `User` models, src/index.js lines 242-431)

Only the fields the core logic reads or writes are embedded. -/

/-- A persisted task record (`Task` model, src/index.js lines 314-431). -/
structure Task where
  title : String
  clientName : Option String
  pincode : Option String
  mapUrl : Option String
  mapLink : Bool
  latitude : Option JsNum
  longitude : Option JsNum
  assignedTo : Option Nat
  assignedDate : Option String
  assignedAtTimestamp : Option Nat
  status : String
  notes : Option String
  completedAt : Option Nat
  verifiedAt : Option Nat
  manualDate : Option String
  manualTime : Option String
deriving DecidableEq

/-- A user record (`User` model); only the fields the assignment engine
consults. -/
structure User where
  id : Nat
  name : String
  role : String
deriving DecidableEq

/-- The status enum accepted by the `Task` model's `isIn` validator
(src/index.js lines 384-399). -/
def statusEnum : List String :=
  ["Unassigned", "Pending", "Completed", "Verified", "Left Job",
   "Not Sharing Info", "Not Picking", "Switch Off", "Incorrect Number",
   "Wrong Address"]

/-- The `validTransitions` table defined inside `PUT /api/tasks/:id`
(src/index.js lines 1294-1307).  A JS object lookup: statuses outside
the four keys yield `undefined` (`none`). -/
def validTransitions : String → Option (List String)
  | "Unassigned" => some ["Pending"]
  | "Pending" => some ["Completed", "Left Job", "Not Sharing Info",
      "Not Picking", "Switch Off", "Incorrect Number", "Wrong Address"]
  | "Completed" => some ["Verified"]
  | "Verified" => some []
  | _ => none

/-- The `/^[0-9]{6}$/` pincode format test. -/
def isSixDigits (s : String) : Bool :=
  s.length == 6 && s.toList.all Char.isDigit

/-- The `Task` model's per-field validators (src/index.js lines 314-431):
`title` non-empty of length 1-500, `clientName` at most 200 characters,
`pincode` exactly six digits, `latitude` in [-90, 90], `longitude` in
[-180, 180], `status` in the enum.  Sequelize skips a validator when the
value is `null` (`allowNull: true`), and runs the validators on a `save`
triggered by `instance.update`. -/
def modelValid (t : Task) : Bool :=
  !(t.title == "") && decide (t.title.length ≤ 500) &&
  t.clientName.all (fun s => decide (s.length ≤ 200)) &&
  t.pincode.all isSixDigits &&
  t.latitude.all (fun n => n.absLe 90) &&
  t.longitude.all (fun n => n.absLe 180) &&
  statusEnum.contains t.status

/-- Outcome of a mutating endpoint: HTTP 400 with `success:false`,
HTTP 404 with `success:false`, HTTP 500 with `success:false`, or
HTTP 200 with `success:true`.  `ok` additionally carries the persisted
task state so theorems can speak about it. -/
inductive ApiResult where
  | badRequest (msg : String)
  | notFound (msg : String)
  | serverError (msg : String)
  | ok (task : Task) (msg : String)
deriving DecidableEq

/-! ## Assignment Engine -/

/-- Endpoint `POST /api/tasks/:taskId/assign` (src/index.js lines 969-1031).
`findTask` is the `Task.findByPk(taskId)` result, `findUser` abstracts
`User.findByPk`.  The body's `employeeId` is checked for truthiness,
then the task and the employee are looked up; the update sets the
assignee, both assignment timestamps, and forces `status = "Pending"`.
A validation failure inside `task.update` is caught and returned as a
500 (`serverError`). -/
def assignHandler (findTask : Option Task) (findUser : Nat → Option User)
    (employeeId : Option Nat) (today : String) (now : Nat) : ApiResult :=
  if !(jsTruthyNat employeeId) then .badRequest "Employee ID is required"
  else
    match findTask with
    | none => .notFound "Task not found"
    | some task =>
      let eid := employeeId.getD 0
      match findUser eid with
      | none => .notFound "Employee not found or invalid"
      | some employee =>
        if !(employee.role == "employee") then
          .notFound "Employee not found or invalid"
        else
          let updated : Task :=
            { task with
              assignedTo := some eid
              assignedDate := some today
              assignedAtTimestamp := some now
              status := "Pending" }
          if modelValid updated then
            .ok updated ("Task assigned to " ++ employee.name ++ " successfully")
          else .serverError "Failed to assign task: Validation error"

/-- Endpoint `POST /api/tasks/:taskId/unassign` (src/index.js lines 1034-1089).
Clears the assignee and both assignment timestamps and forces
`status = "Unassigned"`. -/
def unassignHandler (findTask : Option Task) : ApiResult :=
  match findTask with
  | none => .notFound "Task not found"
  | some task =>
    let updated : Task :=
      { task with
        assignedTo := none
        assignedDate := none
        assignedAtTimestamp := none
        status := "Unassigned" }
    if modelValid updated then
      .ok updated "Task unassigned and returned to task pool"
    else .serverError "Failed to unassign task: Validation error"

/-- Endpoint `PUT /api/tasks/:taskId/reassign` (src/index.js lines 1092-1158).
Sets the assignee to the new employee and refreshes
`assignedAtTimestamp`; `status` becomes `"Pending"` when it was
`"Unassigned"` and is kept unchanged otherwise (line 1129). -/
def reassignHandler (findTask : Option Task) (findUser : Nat → Option User)
    (newEmployeeId : Option Nat) (now : Nat) : ApiResult :=
  if !(jsTruthyNat newEmployeeId) then .badRequest "New employee ID is required"
  else
    match findTask with
    | none => .notFound "Task not found"
    | some task =>
      let eid := newEmployeeId.getD 0
      match findUser eid with
      | none => .notFound "New employee not found or invalid"
      | some newEmployee =>
        if !(newEmployee.role == "employee") then
          .notFound "New employee not found or invalid"
        else
          let updated : Task :=
            { task with
              assignedTo := some eid
              assignedAtTimestamp := some now
              status := if task.status == "Unassigned" then "Pending" else task.status }
          if modelValid updated then
            .ok updated ("Task reassigned to " ++ newEmployee.name ++ " successfully")
          else .serverError "Failed to reassign task: Validation error"

/-- Body of `PUT /api/tasks/:id`: the fields the handler reads
(src/index.js line 1268). -/
structure UpdateReq where
  status : Option String
  notes : Option String
  manualDate : Option String
  manualTime : Option String
deriving DecidableEq

/-- Endpoint `PUT /api/tasks/:id` (src/index.js lines 1265-1363).  The handler
defines the `validTransitions` table (lines 1294-1307) but never
consults it: whenever the requested status differs from the current one
it is written (line 1310), setting `completedAt` / `verifiedAt` on first
entry into `"Completed"` / `"Verified"` (lines 1313-1320).  `notes`,
`manualDate` and `manualTime` are copied when present.  The final
`task.update(updates)` runs the model validators (so a status outside
the model's enum is rejected with a 400, the catch at line 1356). -/
def updateTaskHandler (findTask : Option Task) (r : UpdateReq) (now : Nat) :
    ApiResult :=
  match findTask with
  | none => .notFound "Task not found"
  | some task =>
    let t1 : Task :=
      match r.status with
      | none => task
      | some s =>
        if s == task.status then task
        else
          { task with
            status := s
            completedAt :=
              if s == "Completed" && task.completedAt.isNone then some now
              else task.completedAt
            verifiedAt :=
              if s == "Verified" && task.verifiedAt.isNone then some now
              else task.verifiedAt }
    let t2 : Task := match r.notes with | none => t1 | some n => { t1 with notes := some n }
    let t3 : Task := match r.manualDate with | none => t2 | some d => { t2 with manualDate := some d }
    let t4 : Task := match r.manualTime with | none => t3 | some tm => { t3 with manualTime := some tm }
    if modelValid t4 then .ok t4 "Task updated successfully"
    else .badRequest "Failed to update task: Validation error"

/-! ## Coordinate resolution and task creation -/

/-- The coordinate-resolution step shared verbatim by `POST /api/tasks`
(src/index.js lines 1195-1204) and the bulk-upload row loop (lines
1502-1508): when the map url is truthy and either coordinate is falsy,
`extractCoordinates` is consulted and, on a match, BOTH returned values
replace the current ones. -/
def resolveCoords (mapUrl : Option String) (lat lng : Option JsNum) :
    Option JsNum × Option JsNum :=
  if jsTruthyS mapUrl && (!(jsTruthyN lat) || !(jsTruthyN lng)) then
    match extractCoordinates (mapUrl.getD "") with
    | some (la, ln) => (some la, some ln)
    | none => (lat, lng)
  else (lat, lng)

/-- Body of `POST /api/tasks`: the fields the handler destructures
(src/index.js lines 1167-1177). -/
structure CreateBody where
  title : Option String
  pincode : Option String
  mapUrl : Option String
  latitude : Option JsNum
  longitude : Option JsNum
  assignedTo : Option Nat
  notes : Option String
deriving DecidableEq

/-- Endpoint `POST /api/tasks` (src/index.js lines 1165-1262).  After the title
and pincode validations pass, lines 1195-1204 compute
`finalLat`/`finalLng`; evaluation of the `taskData` object literal
(lines 1208-1221) then reads the identifier `clientName` (line 1210),
which is declared nowhere in the enclosing scopes (the handler
destructures only the fields of `CreateBody` plus `createdBy` /
`createdByName` at lines 1167-1177, and no module-level binding
exists).  That read throws `ReferenceError: clientName is not defined`,
which the catch at line 1255 turns into a 400 with the message below —
so every request on this route fails, whatever the body. -/
def createTaskHandler (b : CreateBody) : ApiResult :=
  if !(jsTruthyS b.title) then
    .badRequest "Task title/Case ID is required"
  else if jsTruthyS b.pincode && !(isSixDigits (b.pincode.getD "")) then
    .badRequest "Pincode must be exactly 6 digits"
  else
    let _finalCoords := resolveCoords b.mapUrl b.latitude b.longitude
    .badRequest "Failed to create task: clientName is not defined"

/-! ## Bulk Import Pipeline (`POST /api/tasks/bulk-upload`,
src/index.js lines 1410-1575) -/

/-- One decoded spreadsheet record, with every header alias the row loop
reads (src/index.js lines 1464-1499).  Text cells are `Option String`,
coordinate cells `Option JsNum`.  The fields `clientNameHdr` and
`clientNameHdrLower` stand for `row["Client Name"]` and
`row["client name"]`. -/
structure Row where
  CaseID : Option String := none
  Title : Option String := none
  title : Option String := none
  caseId : Option String := none
  Pincode : Option String := none
  pincode : Option String := none
  PINCODE : Option String := none
  MapURL : Option String := none
  mapUrl : Option String := none
  mapurl : Option String := none
  clientNameHdr : Option String := none
  ClientName : Option String := none
  clientNameHdrLower : Option String := none
  clientName : Option String := none
  Latitude : Option JsNum := none
  latitude : Option JsNum := none
  lat : Option JsNum := none
  Longitude : Option JsNum := none
  longitude : Option JsNum := none
  lng : Option JsNum := none
  Notes : Option String := none
  notes : Option String := none
deriving DecidableEq

/-- The alias chain `row.CaseID || row.Title || row.title || row.caseId` (line 1464). -/
def rowCaseId (row : Row) : Option String :=
  jsOrS row.CaseID (jsOrS row.Title (jsOrS row.title row.caseId))

/-- The alias chain `row.Pincode || row.pincode || row.PINCODE` (line 1465). -/
def rowPincode (row : Row) : Option String :=
  jsOrS row.Pincode (jsOrS row.pincode row.PINCODE)

/-- Outcome of processing one spreadsheet row: an error message pushed to
the report, or a created task. -/
inductive RowResult where
  | err (msg : String)
  | ok (task : Task)
deriving DecidableEq

/-- Whether a row was created. -/
def RowResult.isOk : RowResult → Bool
  | .err _ => false
  | .ok _ => true

/-- The body of one iteration of the bulk-upload row loop (src/index.js
lines 1458-1532): validate case id and pincode, resolve the optional
fields through their header aliases, fill missing coordinates from the
map url, and persist the task as `"Unassigned"`; a `Task.create`
validation failure is caught by the per-row catch (line 1528). -/
def processRow (row : Row) (rowNumber : Nat) : RowResult :=
  let caseId := rowCaseId row
  let pincode := rowPincode row
  if !(jsTruthyS caseId) then
    .err ("Row " ++ toString rowNumber ++ ": CaseID/Title is required")
  else if !(jsTruthyS pincode) then
    .err ("Row " ++ toString rowNumber ++ ": Pincode is required")
  else
    let pincodeStr := jsTrim (pincode.getD "")
    if !(isSixDigits pincodeStr) then
      .err ("Row " ++ toString rowNumber ++
        ": Pincode must be exactly 6 digits (got: " ++ pincodeStr ++ ")")
    else
      let mapUrl := jsOrS row.MapURL (jsOrS row.mapUrl (jsOrS row.mapurl none))
      let clientName := jsOrS row.clientNameHdr (jsOrS row.ClientName
        (jsOrS row.clientNameHdrLower (jsOrS row.clientName none)))
      let lat0 := jsOrN row.Latitude (jsOrN row.latitude (jsOrN row.lat none))
      let lng0 := jsOrN row.Longitude (jsOrN row.longitude (jsOrN row.lng none))
      let nts := jsOrS row.Notes (jsOrS row.notes none)
      let (latF, lngF) := resolveCoords mapUrl lat0 lng0
      let created : Task :=
        { title := jsTrim (caseId.getD "")
          pincode := some pincodeStr
          clientName := if jsTruthyS clientName then some (jsTrim (clientName.getD "")) else none
          mapUrl := if jsTruthyS mapUrl then mapUrl else none
          mapLink := jsTruthyS mapUrl
          latitude := if jsTruthyN latF then latF else none
          longitude := if jsTruthyN lngF then lngF else none
          assignedTo := none
          assignedDate := none
          assignedAtTimestamp := none
          notes := if jsTruthyS nts then some (jsTrim (nts.getD "")) else none
          status := "Unassigned"
          completedAt := none
          verifiedAt := none
          manualDate := none
          manualTime := none }
      if modelValid created then .ok created
      else .err ("Row " ++ toString rowNumber ++ ": Validation error")

/-- Sweep of the row loop starting at 0-based index `i` (the Excel row
number is `i + 2`, accounting for the header row): accumulates created
tasks and error messages in file order. -/
def processRows : List Row → Nat → List Task × List String
  | [], _ => ([], [])
  | r :: rs, i =>
    let rest := processRows rs (i + 1)
    match processRow r (i + 2) with
    | .ok t => (t :: rest.1, rest.2)
    | .err m => (rest.1, m :: rest.2)

/-- The import report returned by the bulk upload (src/index.js lines
1553-1560): `errors` is `null` when empty, otherwise the first 20
messages, with `hasMoreErrors` flagging truncation. -/
structure BulkReport where
  successCount : Nat
  errorCount : Nat
  errors : Option (List String)
  hasMoreErrors : Bool
  message : String
deriving DecidableEq

/-- Outcome of `POST /api/tasks/bulk-upload` on a decoded dataset: a 400
when the sheet is empty (line 1443), otherwise the report plus the list
of created tasks. -/
inductive BulkResult where
  | badRequest (msg : String)
  | ok (report : BulkReport) (created : List Task)
deriving DecidableEq

/-- Endpoint `POST /api/tasks/bulk-upload` from the decoded dataset on
(src/index.js lines 1443-1560). -/
def bulkUploadHandler (rows : List Row) : BulkResult :=
  if rows.length == 0 then .badRequest "Excel file is empty or invalid format"
  else
    let (created, errors) := processRows rows 0
    .ok
      { successCount := created.length
        errorCount := errors.length
        errors := if 0 < errors.length then some (errors.take 20) else none
        hasMoreErrors := decide (20 < errors.length)
        message := toString created.length ++ " tasks uploaded as unassigned" }
      created

/-! ## Sample records used to instantiate the theorems -/

/-- The core invariant tying a task's status to its assignee
(spec section 3): `status == "Unassigned"` iff `assignedTo == null`. -/
def coreInvariant (t : Task) : Prop :=
  t.status = "Unassigned" ↔ t.assignedTo = none

/-- A fresh unassigned task, as the bulk import creates them. -/
def sampleTask : Task :=
  { title := "Case 1", clientName := none, pincode := some "560001",
    mapUrl := none, mapLink := false, latitude := none, longitude := none,
    assignedTo := none, assignedDate := none, assignedAtTimestamp := none,
    status := "Unassigned", notes := none, completedAt := none,
    verifiedAt := none, manualDate := none, manualTime := none }

/-- An employee user. -/
def sampleEmployee : User := ⟨7, "Asha", "employee"⟩

/-- A second employee user. -/
def otherEmployee : User := ⟨9, "Binu", "employee"⟩

/-- A two-employee user store (`User.findByPk`). -/
def sampleUsers : Nat → Option User :=
  fun i =>
    if i == 7 then some sampleEmployee
    else if i == 9 then some otherEmployee
    else none

/-- The task `sampleTask` after being assigned to employee 7. -/
def pendingTask : Task :=
  { sampleTask with
    assignedTo := some 7
    assignedDate := some "2026-01-05"
    assignedAtTimestamp := some 100
    status := "Pending" }

/-- The task `pendingTask` after completing its work. -/
def completedTask : Task :=
  { pendingTask with
    status := "Completed"
    completedAt := some 200 }

/-- A task that has reached the terminal `"Verified"` state. -/
def verifiedTask : Task :=
  { pendingTask with
    status := "Verified"
    completedAt := some 200
    verifiedAt := some 300 }

/-- A valid bulk row using the `CaseID`/`Pincode` headers. -/
def goodRowA : Row := { CaseID := some "A1", Pincode := some "560001" }

/-- A valid bulk row using the `Title`/`pincode` header aliases. -/
def goodRowB : Row := { Title := some "B2", pincode := some "110001" }

/-- A bulk row whose pincode has only five digits. -/
def badPincodeRow : Row := { caseId := some "C3", PINCODE := some "12345" }

/-- A bulk row supplying latitude 5.5 directly, no longitude, and a map
url carrying both coordinates. -/
def partialCoordRow : Row :=
  { CaseID := some "A1", Pincode := some "560001",
    MapURL := some "https://maps.google.com/@12.9716,77.5946,15z",
    Latitude := some ⟨false, 5, 5, 1⟩ }

/-! ## Helper lemmas -/

theorem takeDigits_append (l : List Char) :
    (takeDigits l).1 ++ (takeDigits l).2 = l := by
  induction l with
  | nil => rfl
  | cons c cs ih =>
    rcases htd : takeDigits cs with ⟨ds, r⟩
    rw [htd] at ih
    by_cases h : c.isDigit <;> simp [takeDigits, htd, h, ih]

theorem matchUnsigned_has_dot {l : List Char} {r}
    (h : matchUnsigned l = some r) : '.' ∈ l := by
  have happ := takeDigits_append l
  rcases htd : takeDigits l with ⟨ds, r1⟩
  rw [htd] at happ
  unfold matchUnsigned at h
  rw [htd] at h
  simp only at h
  split at h
  · exact absurd h (by simp)
  · split at h
    · rw [← happ]
      simp
    · exact absurd h (by simp)

theorem matchNum_has_dot {l : List Char} {r}
    (h : matchNum l = some r) : '.' ∈ l := by
  unfold matchNum at h
  split at h
  · rename_i rest
    rcases hm : matchUnsigned rest with _ | u
    · rw [hm] at h; exact absurd h (by simp)
    · exact List.mem_cons_of_mem _ (matchUnsigned_has_dot hm)
  · rcases hm : matchUnsigned l with _ | u
    · rw [hm] at h; exact absurd h (by simp)
    · exact matchUnsigned_has_dot hm

theorem matchPair_has_dot {l : List Char} {r}
    (h : matchPair l = some r) : '.' ∈ l := by
  unfold matchPair at h
  split at h
  · exact absurd h (by simp)
  · rename_i n1 d1 f1 r1 hm
    exact matchNum_has_dot hm

theorem matchPat1At_has_dot {l : List Char} {r}
    (h : matchPat1At l = some r) : '.' ∈ l := by
  unfold matchPat1At at h
  split at h
  · exact List.mem_cons_of_mem _ (matchPair_has_dot h)
  · exact absurd h (by simp)

theorem matchPat2At_has_dot {l : List Char} {r}
    (h : matchPat2At l = some r) : '.' ∈ l := by
  unfold matchPat2At at h
  split at h
  · have := matchPair_has_dot h
    simp [this]
  · exact absurd h (by simp)

theorem findFirst_has_dot {p : List Char → Option (JsNum × JsNum)}
    (hp : ∀ l' r', p l' = some r' → '.' ∈ l') :
    ∀ {l : List Char} {r}, findFirst p l = some r → '.' ∈ l := by
  intro l
  induction l with
  | nil => intro r h; exact absurd h (by simp [findFirst])
  | cons c cs ih =>
    intro r h
    unfold findFirst at h
    split at h
    · rename_i r0 hm
      cases h
      exact hp _ _ hm
    · exact List.mem_cons_of_mem _ (ih h)

theorem extractCoordinates_has_dot {s : String} {r}
    (h : extractCoordinates s = some r) : '.' ∈ s.toList := by
  unfold extractCoordinates at h
  split at h
  · exact absurd h (by simp)
  · split at h
    · rename_i r0 hm
      exact findFirst_has_dot (fun _ _ => matchPat1At_has_dot) hm
    · exact findFirst_has_dot (fun _ _ => matchPat2At_has_dot) h

/-! ## Claim theorems -/

/-- C9: the coordinate extractor tries the `@lat,lng` form first and the
`?q=lat,lng` form second, returning the first match parsed as numbers;
an input matching neither yields "no match" (`none`), not an error.  In
particular `"…@12.9716,77.5946,15z"` yields latitude 12.9716 and
longitude 77.5946, `"?q=12.9,77.5"` yields 12.9 and 77.5, and on an
input containing both fragments the `@` form wins. -/
theorem extractCoordinates_spec_examples :
    (∃ la ln, extractCoordinates "https://maps.google.com/@12.9716,77.5946,15z" =
        some (la, ln) ∧ la.toRat = 12.9716 ∧ ln.toRat = 77.5946) ∧
    (∃ la ln, extractCoordinates "?q=12.9,77.5" = some (la, ln) ∧
        la.toRat = 12.9 ∧ ln.toRat = 77.5) ∧
    extractCoordinates "https://example.com/place/nothing-here" = none ∧
    (∃ la ln, extractCoordinates "?q=1.5,2.5/@3.5,4.5" = some (la, ln) ∧
        la.toRat = 3.5 ∧ ln.toRat = 4.5) := by
  refine ⟨⟨⟨false, 12, 9716, 4⟩, ⟨false, 77, 5946, 4⟩, by decide, ?_, ?_⟩,
    ⟨⟨false, 12, 9, 1⟩, ⟨false, 77, 5, 1⟩, by decide, ?_, ?_⟩,
    by decide,
    ⟨⟨false, 3, 5, 1⟩, ⟨false, 4, 5, 1⟩, by decide, ?_, ?_⟩⟩ <;>
  norm_num [JsNum.toRat]

/-- C10: both regular expressions require a decimal point with digits on
each side, so integer-valued coordinates are never extracted: an input
without any `'.'` character yields no match, and in particular
`"@12,77"` and `"?q=12,77.5"` (integer part in a number of the
fragment) yield no match. -/
theorem extractCoordinates_requires_fraction (s : String)
    (h : ∀ c ∈ s.toList, c ≠ '.') :
    extractCoordinates s = none ∧
    extractCoordinates "@12,77" = none ∧
    extractCoordinates "?q=12,77.5" = none := by
  refine ⟨?_, by decide, by decide⟩
  rcases he : extractCoordinates s with _ | r
  · rfl
  · exact absurd rfl (h '.' (extractCoordinates_has_dot he))

/-- Witness for C10 at the concrete dot-free input `"@12,77"`. -/
theorem extractCoordinates_requires_fraction_witness :
    extractCoordinates "@12,77" = none ∧ extractCoordinates "?q=12,77.5" = none := by
  have h := extractCoordinates_requires_fraction "@12,77" (by decide)
  exact ⟨h.1, h.2.2⟩

/-- C2 (code bug): the handler of `PUT /api/tasks/:id` defines the
allowed-transitions table but never consults it.  At the concrete input
of a task in the terminal `"Verified"` state and a requested status
`"Pending"`, the table offers no outgoing transition, yet the handler
applies the change instead of rejecting it. -/
theorem updateStatus_ignores_transition_table :
    updateTaskHandler (some verifiedTask) ⟨some "Pending", none, none, none⟩ 400 =
      .ok { verifiedTask with status := "Pending" } "Task updated successfully" ∧
    validTransitions "Verified" = some [] := by
  constructor
  · decide
  · rfl

/-- C3 (code bug): a create request with a valid title (here the body
`{title: "Task 1"}` and nothing else) does not return the created task:
evaluating the `taskData` object literal reads the undeclared identifier
`clientName` (src/index.js line 1210), so the handler's catch turns
every request into a 400 failure. -/
theorem createTask_always_fails :
    createTaskHandler ⟨some "Task 1", none, none, none, none, none, none⟩ =
      .badRequest "Failed to create task: clientName is not defined" := by
  decide

/-- The predicate `modelValid` depends only on the validated fields; any task agreeing
with a valid one on them and whose status passes the enum check is
valid. -/
theorem modelValid_of_fields (t t' : Task)
    (htitle : t'.title = t.title) (hclient : t'.clientName = t.clientName)
    (hpin : t'.pincode = t.pincode) (hlat : t'.latitude = t.latitude)
    (hlng : t'.longitude = t.longitude)
    (hv : modelValid t = true) (hs : statusEnum.contains t'.status = true) :
    modelValid t' = true := by
  simp only [modelValid, Bool.and_eq_true] at hv ⊢
  rw [htitle, hclient, hpin, hlat, hlng]
  exact ⟨⟨⟨⟨⟨⟨hv.1.1.1.1.1.1, hv.1.1.1.1.1.2⟩, hv.1.1.1.1.2⟩, hv.1.1.1.2⟩,
    hv.1.1.2⟩, hv.1.2⟩, hs⟩

/-- C1: each of Assign, Unassign and Reassign, when it succeeds, leaves
the persisted task satisfying the core invariant `status == "Unassigned"
iff assignedTo == null`: Assign and Reassign persist a non-null assignee
with a non-Unassigned status, Unassign a null assignee with status
`"Unassigned"`. -/
theorem ops_preserve_core_invariant (findTask : Option Task)
    (findUser : Nat → Option User) (eid : Option Nat) (today : String)
    (now : Nat) (t' : Task) (m : String) :
    (assignHandler findTask findUser eid today now = .ok t' m → coreInvariant t') ∧
    (unassignHandler findTask = .ok t' m → coreInvariant t') ∧
    (reassignHandler findTask findUser eid now = .ok t' m → coreInvariant t') := by
  refine ⟨fun h => ?_, fun h => ?_, fun h => ?_⟩
  · unfold assignHandler at h
    dsimp only at h
    split at h
    · simp at h
    · split at h
      · simp at h
      · split at h
        · simp at h
        · split at h
          · simp at h
          · split at h
            · injection h with h1 _
              subst h1
              simp [coreInvariant]
            · simp at h
  · unfold unassignHandler at h
    dsimp only at h
    split at h
    · simp at h
    · split at h
      · injection h with h1 _
        subst h1
        simp [coreInvariant]
      · simp at h
  · unfold reassignHandler at h
    dsimp only at h
    split at h
    · simp at h
    · split at h
      · simp at h
      · split at h
        · simp at h
        · split at h
          · simp at h
          · split at h
            · split at h
              · injection h with h1 _
                subst h1
                simp [coreInvariant]
              · simp at h
            · split at h
              · injection h with h1 _
                subst h1
                exact ⟨fun hh => absurd hh (by simp_all), fun hh => by simp at hh⟩
              · simp at h

/-- Witness for C1: the invariant holds for the task persisted by a
successful concrete Assign. -/
theorem ops_preserve_core_invariant_witness : coreInvariant pendingTask :=
  (ops_preserve_core_invariant (some sampleTask) sampleUsers (some 7)
    "2026-01-05" 100 pendingTask "Task assigned to Asha successfully").1
    (by decide)

/-- A valid task's status passes the model's enum check. -/
theorem modelValid_status_mem {t : Task} (hv : modelValid t = true) :
    statusEnum.contains t.status = true := by
  simp only [modelValid, Bool.and_eq_true] at hv
  exact hv.2

/-- C4: for every existing task — whatever its current status — and
every existing user with the employee role, Assign persists
`status = "Pending"`, the assignee, and `assignedDate` /
`assignedAtTimestamp` set to the supplied current date and time. -/
theorem assign_forces_pending (task : Task) (findUser : Nat → Option User)
    (eid : Nat) (emp : User) (today : String) (now : Nat)
    (heid : eid ≠ 0) (hfind : findUser eid = some emp)
    (hrole : emp.role = "employee") (hvalid : modelValid task = true) :
    assignHandler (some task) findUser (some eid) today now =
      .ok { task with
        assignedTo := some eid
        assignedDate := some today
        assignedAtTimestamp := some now
        status := "Pending" }
        ("Task assigned to " ++ emp.name ++ " successfully") := by
  have hv' : modelValid { task with
      assignedTo := some eid
      assignedDate := some today
      assignedAtTimestamp := some now
      status := "Pending" } = true := by
    refine modelValid_of_fields task _ rfl rfl rfl rfl rfl hvalid ?_
    show statusEnum.contains "Pending" = true
    decide
  simp [assignHandler, jsTruthyNat, heid, hfind, hrole, hv']

/-- Witness for C4: assigning a task already in the terminal
`"Verified"` state still forces `"Pending"`. -/
theorem assign_forces_pending_witness :
    assignHandler (some verifiedTask) sampleUsers (some 7) "2026-02-01" 500 =
      .ok { verifiedTask with
        assignedTo := some 7
        assignedDate := some "2026-02-01"
        assignedAtTimestamp := some 500
        status := "Pending" }
        ("Task assigned to " ++ sampleEmployee.name ++ " successfully") :=
  assign_forces_pending verifiedTask sampleUsers 7 sampleEmployee "2026-02-01" 500
    (by decide) rfl rfl (by decide)

/-- C6: Reassign sets the assignee to the new employee and refreshes
`assignedAtTimestamp`; the status is promoted to `"Pending"` exactly
when it was `"Unassigned"` and kept unchanged otherwise — in particular
a Completed task stays Completed. -/
theorem reassign_preserves_progress (task : Task) (findUser : Nat → Option User)
    (eid : Nat) (emp : User) (now : Nat)
    (heid : eid ≠ 0) (hfind : findUser eid = some emp)
    (hrole : emp.role = "employee") (hvalid : modelValid task = true) :
    reassignHandler (some task) findUser (some eid) now =
      .ok { task with
        assignedTo := some eid
        assignedAtTimestamp := some now
        status := if task.status == "Unassigned" then "Pending" else task.status }
        ("Task reassigned to " ++ emp.name ++ " successfully") ∧
    (task.status = "Completed" →
      (if task.status == "Unassigned" then "Pending" else task.status) = "Completed") ∧
    (task.status = "Unassigned" →
      (if task.status == "Unassigned" then "Pending" else task.status) = "Pending") := by
  have hsmem : statusEnum.contains
      (if task.status == "Unassigned" then "Pending" else task.status) = true := by
    cases hb : task.status == "Unassigned"
    · simpa [hb] using modelValid_status_mem hvalid
    · simp [hb]
      decide
  have hv' : modelValid { task with
      assignedTo := some eid
      assignedAtTimestamp := some now
      status := if task.status == "Unassigned" then "Pending" else task.status } = true :=
    modelValid_of_fields task _ rfl rfl rfl rfl rfl hvalid hsmem
  have hv2 := hv'
  simp only [beq_iff_eq] at hv2
  refine ⟨?_, fun hh => by rw [hh]; decide, fun hh => by rw [hh]; decide⟩
  simp [reassignHandler, jsTruthyNat, heid, hfind, hrole, hv', hv2]

/-- Witness for C6: reassigning a Completed task from employee 7 to
employee 9 keeps the status `"Completed"`. -/
theorem reassign_preserves_progress_witness :
    (reassignHandler (some completedTask) sampleUsers (some 9) 600 =
      .ok { completedTask with
        assignedTo := some 9
        assignedAtTimestamp := some 600
        status := if completedTask.status == "Unassigned" then "Pending"
          else completedTask.status }
        ("Task reassigned to " ++ otherEmployee.name ++ " successfully")) ∧
    (completedTask.status = "Completed" →
      (if completedTask.status == "Unassigned" then "Pending"
        else completedTask.status) = "Completed") ∧
    (completedTask.status = "Unassigned" →
      (if completedTask.status == "Unassigned" then "Pending"
        else completedTask.status) = "Pending") :=
  reassign_preserves_progress completedTask sampleUsers 9 otherEmployee 600
    (by decide) rfl rfl (by decide)

/-- C7: the first UpdateStatus transition into `"Completed"` stamps
`completedAt`; once `completedAt` is set, no status update (of any kind)
ever changes it; and requesting the task's current status changes
nothing. -/
theorem completedAt_write_once (task : Task) (r : UpdateReq) (now now2 : Nat)
    (c : Nat) :
    (modelValid task = true → task.completedAt = none →
      task.status ≠ "Completed" →
      updateTaskHandler (some task) ⟨some "Completed", none, none, none⟩ now =
        .ok { task with
          status := "Completed"
          completedAt := some now } "Task updated successfully") ∧
    (task.completedAt = some c →
      ∀ t'' m', updateTaskHandler (some task) r now2 = .ok t'' m' →
        t''.completedAt = some c) ∧
    (modelValid task = true →
      updateTaskHandler (some task) ⟨some task.status, none, none, none⟩ now =
        .ok task "Task updated successfully") := by
  refine ⟨fun hv hca hst => ?_, fun hc t'' m' h => ?_, fun hv => ?_⟩
  · have hv' : modelValid { task with
        status := "Completed"
        completedAt := some now } = true := by
      refine modelValid_of_fields task _ rfl rfl rfl rfl rfl hv ?_
      show statusEnum.contains "Completed" = true
      decide
    have hne : "Completed" ≠ task.status := fun hh => hst hh.symm
    simp [updateTaskHandler, hne, hca, hv']
  · rcases r with ⟨rs, rn, rd, rt⟩
    unfold updateTaskHandler at h
    dsimp only at h
    rcases rs with _ | s <;> rcases rn with _ | n <;>
      rcases rd with _ | d <;> rcases rt with _ | tm <;>
      dsimp only at h <;>
      repeat' split at h
    all_goals
      first
      | (injection h with h1 _; subst h1; simp_all)
      | injection h
  · simp [updateTaskHandler, hv]

/-- Witness for C7: completing a concrete Pending task stamps
`completedAt` with the current time. -/
theorem completedAt_write_once_witness :
    updateTaskHandler (some pendingTask) ⟨some "Completed", none, none, none⟩ 500 =
      .ok { pendingTask with
        status := "Completed"
        completedAt := some 500 } "Task updated successfully" :=
  (completedAt_write_once pendingTask ⟨none, none, none, none⟩ 500 0 0).1
    (by decide) rfl (by decide)

/-- A non-empty string is JS-truthy. -/
theorem jsTruthyS_some_ne {s : String} (h : s ≠ "") : jsTruthyS (some s) = true := by
  simp [jsTruthyS, h]

/-- A run of rows that all process successfully contributes no errors and
one created task per row. -/
theorem processRows_all_ok (rs : List Row) (k : Nat)
    (h : ∀ i (hi : i < rs.length),
      (processRow (rs.get ⟨i, hi⟩) (i + (k + 2))).isOk = true) :
    (processRows rs k).2 = [] ∧ (processRows rs k).1.length = rs.length := by
  induction rs generalizing k with
  | nil => simp [processRows]
  | cons r rs ih =>
    have h0 : (processRow r (k + 2)).isOk = true := by
      simpa using h 0 (by simp)
    have hrec := ih (k + 1) (fun i hi => by
      have hx := h (i + 1) (by simpa using Nat.succ_lt_succ hi)
      have harith : i + 1 + (k + 2) = i + (k + 1 + 2) := by omega
      rw [harith] at hx
      exact hx)
    rcases hr : processRow r (k + 2) with m | t
    · rw [hr] at h0
      simp [RowResult.isOk] at h0
    · simp [processRows, hr, hrec.1, hrec.2]

/-- C5: in a bulk import of `N = rest.length + 3` rows where exactly the
row at 0-based index 2 (spreadsheet row 4) has a pincode of five digits
after trimming and every other row processes successfully, the report
has `successCount = N - 1`, `errorCount = 1`, the error list is exactly
`["Row 4: Pincode must be exactly 6 digits (got: <value>)"]` carrying
the offending trimmed value, and the bad row does not abort the batch:
all `N - 1` other rows are still created. -/
theorem bulk_import_isolates_bad_row (r0 r1 rbad : Row) (rest : List Row)
    (v : String)
    (h0 : (processRow r0 2).isOk = true)
    (h1 : (processRow r1 3).isOk = true)
    (hrest : ∀ i (hi : i < rest.length),
      (processRow (rest.get ⟨i, hi⟩) (i + 5)).isOk = true)
    (hcase : jsTruthyS (rowCaseId rbad) = true)
    (hpin : rowPincode rbad = some v)
    (hlen : (jsTrim v).length = 5)
    (_hdig : ∀ ch ∈ (jsTrim v).toList, ch.isDigit) :
    ∃ created,
      bulkUploadHandler (r0 :: r1 :: rbad :: rest) =
        .ok { successCount := rest.length + 2
              errorCount := 1
              errors := some ["Row 4: Pincode must be exactly 6 digits (got: "
                ++ jsTrim v ++ ")"]
              hasMoreErrors := false
              message := toString (rest.length + 2) ++ " tasks uploaded as unassigned" }
          created ∧
      created.length = rest.length + 2 := by
  have hvne : v ≠ "" := by
    intro hv
    rw [hv] at hlen
    simp [jsTrim, trimChars] at hlen
  have hpin6 : isSixDigits (jsTrim v) = false := by
    simp [isSixDigits, hlen]
  have hbad : processRow rbad 4 =
      .err ("Row 4: Pincode must be exactly 6 digits (got: " ++ jsTrim v ++ ")") := by
    unfold processRow
    rw [hpin]
    simp [hcase, jsTruthyS_some_ne hvne, hpin6]
    rfl
  obtain ⟨t0, ht0⟩ : ∃ t, processRow r0 2 = .ok t := by
    rcases he : processRow r0 2 with m | t
    · rw [he] at h0
      simp [RowResult.isOk] at h0
    · exact ⟨t, rfl⟩
  obtain ⟨t1, ht1⟩ : ∃ t, processRow r1 3 = .ok t := by
    rcases he : processRow r1 3 with m | t
    · rw [he] at h1
      simp [RowResult.isOk] at h1
    · exact ⟨t, rfl⟩
  have hrest' := processRows_all_ok rest 3 (fun i hi => hrest i hi)
  have hrun : processRows (r0 :: r1 :: rbad :: rest) 0 =
      (t0 :: t1 :: (processRows rest 3).1,
       ["Row 4: Pincode must be exactly 6 digits (got: " ++ jsTrim v ++ ")"]) := by
    simp [processRows, ht0, ht1, hbad, hrest'.1]
  refine ⟨t0 :: t1 :: (processRows rest 3).1, ?_, by simp [hrest'.2]⟩
  simp [bulkUploadHandler, hrun, hrest'.2]

/-- Witness for C5 on a concrete three-row dataset whose third row has
the five-digit pincode `"12345"`. -/
theorem bulk_import_isolates_bad_row_witness :
    ∃ created,
      bulkUploadHandler [goodRowA, goodRowB, badPincodeRow] =
        .ok { successCount := 2
              errorCount := 1
              errors := some ["Row 4: Pincode must be exactly 6 digits (got: "
                ++ jsTrim "12345" ++ ")"]
              hasMoreErrors := false
              message := toString 2 ++ " tasks uploaded as unassigned" }
          created ∧
      created.length = 2 :=
  bulk_import_isolates_bad_row goodRowA goodRowB badPincodeRow [] "12345"
    (by decide) (by decide) (fun i hi => absurd hi (by simp))
    (by decide) (by decide) (by decide) (by decide)

/-- C8 counterexample: directly supplied coordinate values do NOT always
take precedence over values extracted from the map url.  The concrete
row `partialCoordRow` supplies latitude 5.5 directly and no longitude;
because one coordinate is missing the extractor is consulted, and BOTH
extracted values are taken, overwriting the directly supplied latitude
5.5 with the extracted 12.9716. -/
theorem coord_precedence_counterexample :
    partialCoordRow.Latitude = some ⟨false, 5, 5, 1⟩ ∧
    processRow partialCoordRow 2 =
      .ok { title := "A1", clientName := none, pincode := some "560001",
            mapUrl := some "https://maps.google.com/@12.9716,77.5946,15z",
            mapLink := true, latitude := some ⟨false, 12, 9716, 4⟩,
            longitude := some ⟨false, 77, 5946, 4⟩, assignedTo := none,
            assignedDate := none, assignedAtTimestamp := none,
            status := "Unassigned", notes := none, completedAt := none,
            verifiedAt := none, manualDate := none, manualTime := none } ∧
    JsNum.toRat ⟨false, 5, 5, 1⟩ ≠ JsNum.toRat ⟨false, 12, 9716, 4⟩ := by
  refine ⟨rfl, by decide, ?_⟩
  norm_num [JsNum.toRat]

/-- C8 amended: in both single task creation and bulk row processing the
coordinate resolution step consults the extractor only when the map url
is present and a latitude or longitude is missing (falsy); directly
supplied values survive untouched when both are present or when there is
no map url, but when the extractor is consulted and finds a match, BOTH
extracted values are used — overwriting a directly supplied value of the
other coordinate. -/
theorem coord_extractor_consultation (mapUrl : Option String)
    (lat lng : Option JsNum) :
    (jsTruthyN lat = true → jsTruthyN lng = true →
      resolveCoords mapUrl lat lng = (lat, lng)) ∧
    (jsTruthyS mapUrl = false → resolveCoords mapUrl lat lng = (lat, lng)) ∧
    (∀ la ln, jsTruthyS mapUrl = true →
      (jsTruthyN lat = false ∨ jsTruthyN lng = false) →
      extractCoordinates (mapUrl.getD "") = some (la, ln) →
      resolveCoords mapUrl lat lng = (some la, some ln)) := by
  refine ⟨fun h1 h2 => ?_, fun h => ?_, fun la ln h1 h2 h3 => ?_⟩
  · simp [resolveCoords, h1, h2]
  · simp [resolveCoords, h]
  · rcases h2 with h2 | h2 <;> simp [resolveCoords, h1, h2, h3]

/-- Witness for C8's amended statement: with latitude 3.5 supplied, no
longitude, and a matching map url, both extracted values are taken. -/
theorem coord_extractor_consultation_witness :
    resolveCoords (some "@1.5,2.5") (some ⟨false, 3, 5, 1⟩) none =
      (some ⟨false, 1, 5, 1⟩, some ⟨false, 2, 5, 1⟩) :=
  (coord_extractor_consultation (some "@1.5,2.5") (some ⟨false, 3, 5, 1⟩)
    none).2.2 ⟨false, 1, 5, 1⟩ ⟨false, 2, 5, 1⟩ (by decide) (Or.inr rfl)
    (by decide)

end Validiant
